import Mathlib

/-!
Verification of the bytecode-to-native compiler core in `src/comp.c`
(basic-block discovery, meta-stack opcode emitter, inline helpers,
compilation driver) against its natural-language specification.

The definitions below are shallow embeddings translated from the C
source.  Machine integers (`EMACS_INT`) are modelled as `Int` with
explicit wrap-around at 64 bits; C `unsigned` arithmetic is modelled
as `Nat` arithmetic modulo `2 ^ 32`.
-/

/-! ### Opcode byte values

Modelled from the spec glossary: `comp.c` includes `bytecode.h`, which is
not part of the sources; the numeric opcode values below are the standard
byte-interpreter opcode bytes that header assigns (octal `Bvarref = 010`,
`Bgoto = 0202`, `Bconstant = 0300`, ...). -/

def Bstack_ref6 : Nat := 6
def Bstack_ref7 : Nat := 7
def Bvarref6 : Nat := 14
def Bvarref7 : Nat := 15
def Bvarset6 : Nat := 22
def Bvarset7 : Nat := 23
def Bvarbind6 : Nat := 30
def Bvarbind7 : Nat := 31
def Bcall6 : Nat := 38
def Bcall7 : Nat := 39
def Bunbind6 : Nat := 46
def Bunbind7 : Nat := 47
def Bpophandler : Nat := 48
def Bpushconditioncase : Nat := 49
def Bpushcatch : Nat := 50
def Bnth : Nat := 56
def Bsymbolp : Nat := 57
def Bconsp : Nat := 58
def Bstringp : Nat := 59
def Blistp : Nat := 60
def Bnot : Nat := 63
def Bcar : Nat := 64
def Bcdr : Nat := 65
def Blist1 : Nat := 67
def Blist2 : Nat := 68
def Blist3 : Nat := 69
def Blist4 : Nat := 70
def Blength : Nat := 71
def Bsymbol_value : Nat := 74
def Bsymbol_function : Nat := 75
def Bsub1 : Nat := 83
def Badd1 : Nat := 84
def Bnegate : Nat := 91
def Bfollowing_char : Nat := 103
def Bpreceding_char : Nat := 104
def Bcurrent_column : Nat := 105
def Beolp : Nat := 108
def Beobp : Nat := 109
def Bbolp : Nat := 110
def Bbobp : Nat := 111
def Bcurrent_buffer : Nat := 112
def Bwiden : Nat := 126
def Bconstant2 : Nat := 129
def Bgoto : Nat := 130
def Bgotoifnil : Nat := 131
def Bgotoifnonnil : Nat := 132
def Bgotoifnilelsepop : Nat := 133
def Bgotoifnonnilelsepop : Nat := 134
def Breturn : Nat := 135
def Bdiscard : Nat := 136
def Bunbind_all : Nat := 146
def Bcar_safe : Nat := 162
def Bcdr_safe : Nat := 163
def Bnumberp : Nat := 167
def Bintegerp : Nat := 168
def BRgoto : Nat := 170
def BRgotoifnil : Nat := 171
def BRgotoifnonnil : Nat := 172
def BRgotoifnilelsepop : Nat := 173
def BRgotoifnonnilelsepop : Nat := 174
def BlistN : Nat := 175
def BconcatN : Nat := 176
def BinsertN : Nat := 177
def Bstack_set : Nat := 178
def Bstack_set2 : Nat := 179
def BdiscardN : Nat := 182
def Bswitch : Nat := 183
def Bconstant : Nat := 192

/-! ### Tagged fixnum words (`emit_make_fixnum`, `emit_XFIXNUM`)

Modelled from the spec for the host constants `comp.c` takes from
`lisp.h` (not under the sources): on the standard 64-bit configuration
`INTTYPEBITS = 2`, `Lisp_Int0 = 2`, `MOST_POSITIVE_FIXNUM = 2^61 - 1`,
`MOST_NEGATIVE_FIXNUM = -2^61`.  The emitted operations themselves are
translated from `emit_make_fixnum` and `emit_XFIXNUM` in `comp.c`. -/

def INTTYPEBITS : Nat := 2

def Lisp_Int0 : Int := 2

def MOST_POSITIVE_FIXNUM : Int := 2 ^ 61 - 1

def MOST_NEGATIVE_FIXNUM : Int := -(2 ^ 61)

/-- Reduction of a mathematical integer to the signed 64-bit
`EMACS_INT` it denotes (the value stored through the integer view of
the `Lisp_Object` union). -/
def wrap64 (x : Int) : Int := (x + 2 ^ 63) % 2 ^ 64 - 2 ^ 63

/-- `emit_make_fixnum`: `(obj << INTTYPEBITS) + Lisp_Int0`, computed in
`EMACS_INT` and stored through the integer view (`emit_lval_XLI`). -/
def emit_make_fixnum (n : Int) : Int :=
  wrap64 (n * 2 ^ INTTYPEBITS + Lisp_Int0)

/-- `emit_XFIXNUM`: arithmetic right shift of the integer view by
`comp.inttypebits`; on signed integers this is flooring division by
`2 ^ INTTYPEBITS`. -/
def emit_XFIXNUM (w : Int) : Int := Int.fdiv w (2 ^ INTTYPEBITS)

/-- `emit_FIXNUMP`: `!(((XLI x >> 0) - (Lisp_Int0 >> 0)) & ((1 << INTTYPEBITS) - 1))`,
i.e. the low `INTTYPEBITS` bits of `w - Lisp_Int0` are zero. -/
def FIXNUMP (w : Int) : Bool :=
  decide ((w - Lisp_Int0) % 2 ^ INTTYPEBITS = 0)

/-! ### The `Bconstant` default case of `compile_f` -/

/-- Guard of the `default:`/`CASE (Bconstant)` arm of `compile_f`:
`if (op < Bconstant || op > Bconstant + vector_size) goto fail;`. -/
def bconstant_fails (op vector_size : Nat) : Bool :=
  decide (op < Bconstant ∨ op > Bconstant + vector_size)

/-- Constants-vector index used when the guard passes: `op -= Bconstant`. -/
def bconstant_index (op : Nat) : Nat := op - Bconstant

/-! ### Basic-block discovery (`compute_blocks`)

The first loop of `compute_blocks` records candidate block-leader PCs in
`bb_start_pc`; afterwards the list is sorted and deduplicated.  The
opcode classification below transcribes the `switch` of that loop. -/

/-- 3-byte non-branch ops of the `compute_blocks` switch (`pc += 2`). -/
def compute_blocks_is3byte (op : Nat) : Bool :=
  decide (op = Bvarref7 ∨ op = Bvarset7 ∨ op = Bvarbind7 ∨ op = Bcall7 ∨
    op = Bunbind7 ∨ op = Bstack_ref7 ∨ op = Bstack_set2)

/-- 2-byte non-branch ops of the `compute_blocks` switch (`++pc`). -/
def compute_blocks_is2byte (op : Nat) : Bool :=
  decide (op = Bvarref6 ∨ op = Bvarset6 ∨ op = Bvarbind6 ∨ op = Bcall6 ∨
    op = Bunbind6 ∨ op = Bconstant2 ∨ op = BlistN ∨ op = BconcatN ∨
    op = BinsertN ∨ op = Bstack_ref6 ∨ op = Bstack_set ∨ op = BdiscardN)

/-- Absolute branches of the `compute_blocks` switch. -/
def compute_blocks_isAbs (op : Nat) : Bool :=
  decide (op = Bgoto ∨ op = Bgotoifnil ∨ op = Bgotoifnonnil ∨
    op = Bgotoifnilelsepop ∨ op = Bgotoifnonnilelsepop ∨
    op = Bpushcatch ∨ op = Bpushconditioncase)

/-- PC-relative branches of the `compute_blocks` switch. -/
def compute_blocks_isRel (op : Nat) : Bool :=
  decide (op = BRgoto ∨ op = BRgotoifnil ∨ op = BRgotoifnonnil ∨
    op = BRgotoifnilelsepop ∨ op = BRgotoifnonnilelsepop)

/-- Ops after which `compute_blocks` opens a new basic block. -/
def compute_blocks_isNewBB (op : Nat) : Bool :=
  decide (op = Bsub1 ∨ op = Badd1 ∨ op = Bnegate ∨ op = Breturn)

/-- The recording loop of `compute_blocks`.  `new_bb` is the flag of the
source; the accumulator collects `bb_start_pc` in push order.  In the
relative-branch case the source stores `FETCH - 128` into an `unsigned`,
hence the arithmetic modulo `2 ^ 32`.  Fuel bounds the iteration count
(each iteration advances `pc` by at least one byte). -/
def compute_blocks_scan (bytes : List Nat) :
    Nat → Nat → Bool → List Nat → List Nat
  | 0, _, _, acc => acc
  | fuel + 1, pc, new_bb, acc =>
    if pc < bytes.length then
      let acc1 := if new_bb then acc ++ [pc] else acc
      let op := bytes.getD pc 0
      let pc1 := pc + 1
      if compute_blocks_is3byte op then
        compute_blocks_scan bytes fuel (pc1 + 2) false acc1
      else if compute_blocks_is2byte op then
        compute_blocks_scan bytes fuel (pc1 + 1) false acc1
      else if compute_blocks_isAbs op then
        let target := bytes.getD pc1 0 + bytes.getD (pc1 + 1) 0 * 256
        compute_blocks_scan bytes fuel (pc1 + 2) true (acc1 ++ [target])
      else if compute_blocks_isRel op then
        let target := (bytes.getD pc1 0 + 2 ^ 32 - 128) % 2 ^ 32
        compute_blocks_scan bytes fuel (pc1 + 1) true (acc1 ++ [target])
      else if compute_blocks_isNewBB op then
        compute_blocks_scan bytes fuel pc1 true acc1
      else
        compute_blocks_scan bytes fuel pc1 false acc1
    else acc

/-- Insertion step used to model the `qsort` call of `compute_blocks`. -/
def insortNat (x : Nat) : List Nat → List Nat
  | [] => [x]
  | y :: ys => if x ≤ y then x :: y :: ys else y :: insortNat x ys

/-- Sorting of `bb_start_pc` (the order produced by `qsort` with `ucmp`). -/
def sortNat (l : List Nat) : List Nat := l.foldr insortNat []

/-- The in-place deduplication of the sorted `bb_start_pc` array. -/
def dedupSorted : List Nat → List Nat
  | [] => []
  | [x] => [x]
  | x :: y :: ys =>
    if x = y then dedupSorted (y :: ys) else x :: dedupSorted (y :: ys)

/-- The block-leader PCs produced by `compute_blocks`: the recorded
candidates, sorted and deduplicated. -/
def compute_blocks_leaders (bytes : List Nat) : List Nat :=
  dedupSorted (sortNat (compute_blocks_scan bytes (bytes.length + 1) 0 true []))

/-! ### PC stepping and relative-branch targets of the emission pass

`compile_f` walks the same byte stream.  The classification below
transcribes, case by case, how many immediate bytes each arm of the big
`switch` in `compile_f` fetches; unlisted bytes reach the
`default:`/`Bconstant` arm.  The scan collects the absolute target
computed for each one-byte PC-relative branch
(`op = FETCH - 128; op += pc;`). -/

/-- Is `a ≤ x ≤ b`? -/
def betweenNat (a b x : Nat) : Bool := decide (a ≤ x ∧ x ≤ b)

/-- Opcodes `compile_f` handles with no immediate operand fetch:
`Bstack_ref1..5`, `Bvarref..Bvarref5`, `Bvarset..Bvarset5`,
`Bvarbind..Bvarbind5`, `Bcall..Bcall5`, `Bunbind..Bunbind5`,
`Bpophandler`, the contiguous `Bnth..Bindent_to` block, `Beolp..Bsave_current_buffer_1`,
`Binteractive_p..Bend_of_line`, `Breturn..Btemp_output_buffer_show`,
`Bset_marker..Bassq`, and `Bsetcar..Bintegerp`. -/
def compile_f_step_simple (op : Nat) : Bool :=
  betweenNat 1 5 op || betweenNat 8 13 op || betweenNat 16 21 op ||
  betweenNat 24 29 op || betweenNat 32 37 op || betweenNat 40 45 op ||
  decide (op = Bpophandler) || betweenNat 56 106 op ||
  betweenNat 108 114 op || betweenNat 116 127 op ||
  betweenNat 135 145 op || betweenNat 147 158 op || betweenNat 160 168 op

/-- Opcodes whose `compile_f` arm does one `FETCH`. -/
def compile_f_fetch1 (op : Nat) : Bool :=
  decide (op = Bstack_ref6 ∨ op = Bvarref6 ∨ op = Bvarset6 ∨ op = Bvarbind6 ∨
    op = Bcall6 ∨ op = Bunbind6 ∨ op = BlistN ∨ op = BconcatN ∨
    op = BinsertN ∨ op = Bstack_set ∨ op = BdiscardN)

/-- Non-branch opcodes whose `compile_f` arm does one `FETCH2`. -/
def compile_f_fetch2 (op : Nat) : Bool :=
  decide (op = Bstack_ref7 ∨ op = Bvarref7 ∨ op = Bvarset7 ∨ op = Bvarbind7 ∨
    op = Bcall7 ∨ op = Bunbind7 ∨ op = Bstack_set2)

/-- Absolute branches in `compile_f` (all `FETCH2`). -/
def compile_f_isAbs (op : Nat) : Bool := compute_blocks_isAbs op

/-- PC-relative branches in `compile_f`. -/
def compile_f_isRel (op : Nat) : Bool := compute_blocks_isRel op

/-- Opcodes on which `compile_f` raises an error (`Bunbind_all`,
`Bswitch`). -/
def compile_f_is_error (op : Nat) : Bool :=
  decide (op = Bunbind_all ∨ op = Bswitch)

/-- The PC walk of `compile_f`, collecting for every one-byte
PC-relative branch the absolute target it computes:
`op = FETCH - 128; op += pc;` in `unsigned` arithmetic, with `pc`
already past the displacement byte.  `Bconstant2` and the
`default:`/`Bconstant` arm perform the `Bswitch` lookahead of
`do_constant`; the `Bconstant` arm fails on bytes outside
`[Bconstant, Bconstant + vector_size]`.  Returns `none` when
compilation aborts. -/
def compile_f_scan (bytes : List Nat) (vector_size : Nat) :
    Nat → Nat → List Nat → Option (List Nat)
  | 0, _, acc => some acc
  | fuel + 1, pc, acc =>
    if pc < bytes.length then
      let op := bytes.getD pc 0
      let pc1 := pc + 1
      if compile_f_step_simple op then
        compile_f_scan bytes vector_size fuel pc1 acc
      else if compile_f_fetch1 op then
        compile_f_scan bytes vector_size fuel (pc1 + 1) acc
      else if compile_f_fetch2 op then
        compile_f_scan bytes vector_size fuel (pc1 + 2) acc
      else if compile_f_isAbs op then
        compile_f_scan bytes vector_size fuel (pc1 + 2) acc
      else if compile_f_isRel op then
        let disp := (bytes.getD pc1 0 + 2 ^ 32 - 128) % 2 ^ 32
        let target := (disp + (pc1 + 1)) % 2 ^ 32
        compile_f_scan bytes vector_size fuel (pc1 + 1) (acc ++ [target])
      else if compile_f_is_error op then none
      else if op = Bconstant2 then
        if pc1 < bytes.length ∧ bytes.getD pc1 0 = Bswitch then
          compile_f_scan bytes vector_size fuel (pc1 + 1) acc
        else compile_f_scan bytes vector_size fuel pc1 acc
      else
        if op < Bconstant ∨ op > Bconstant + vector_size then none
        else if pc1 < bytes.length ∧ bytes.getD pc1 0 = Bswitch then
          compile_f_scan bytes vector_size fuel (pc1 + 1) acc
        else compile_f_scan bytes vector_size fuel pc1 acc
    else some acc

/-- Absolute targets the emission pass computes for the one-byte
PC-relative branches of a byte stream. -/
def compile_f_rel_targets (bytes : List Nat) (vector_size : Nat) :
    Option (List Nat) :=
  compile_f_scan bytes vector_size (bytes.length + 1) 0 []

/-! ### The call dispatch of `compile_f` (`docall`) -/

/-- The state `docall` inspects after popping `nargs = op + 1` values:
the annotations of the meta-stack slot holding the function operand and
the facts queried about the symbol it tracks. -/
structure CallSiteCtx where
  const_set : Bool
  typeIsSymbol : Bool
  symIsSelf : Bool
  funcellIsSubr : Bool
  subrMinArgs : Int
  subrMaxArgs : Int
deriving DecidableEq

/-- `MANY`, the variadic `max_args` marker of `struct Lisp_Subr`
(modelled from the spec: defined in `lisp.h`, not under the sources). -/
def MANY : Int := -2

/-- Which call the emitter produces for a `call` opcode. -/
inductive EmittedCall where
  | selfcall
  | directSubr
  | funcall
deriving DecidableEq

/-- The dispatch of `docall` in `compile_f`: with `const_set` and type
`Lisp_Symbol` on the function slot, a self-name emits a direct self
call; otherwise a `SUBRP` function cell emits a call through the subr's
function pointer unless `max_args == MANY`; every remaining case falls
through to `Ffuncall`. -/
def docall_dispatch (c : CallSiteCtx) : EmittedCall :=
  if c.const_set = true ∧ c.typeIsSymbol = true then
    if c.symIsSelf = true then EmittedCall.selfcall
    else if c.funcellIsSubr = true then
      if c.subrMaxArgs = MANY then EmittedCall.funcall
      else EmittedCall.directSubr
    else EmittedCall.funcall
  else EmittedCall.funcall

/-! ### Lisp values and the list-construction ops -/

/-- Abstract Lisp values: nil, non-nil atoms, cons cells. -/
inductive LVal where
  | nil
  | atom (n : Nat)
  | cons (car cdr : LVal)
deriving DecidableEq

/-- The loop of `make_list` in `compile_f`: each iteration does `POP2`
(popping the accumulated list then one more stack value) and pushes
`Fcons` of the two.  The meta-stack is the list with its top first;
`none` models stack underflow. -/
def make_list_loop : Nat → List LVal → Option (List LVal)
  | 0, st => some st
  | n + 1, acc :: y :: rest => make_list_loop n (LVal.cons y acc :: rest)
  | _ + 1, _ => none

/-- `make_list` in `compile_f`: `POP1`, push `Fcons (x, Qnil)`, then run
the loop `op` times. -/
def make_list (op : Nat) : List LVal → Option (List LVal)
  | x :: rest => make_list_loop op (LVal.cons x LVal.nil :: rest)
  | [] => none

/-- The `Blist1..Blist4` arms: `op = opcode - Blist1`, i.e. `k - 1` for
`listk`. -/
def emit_listk (k : Nat) (st : List LVal) : Option (List LVal) :=
  make_list (k - 1) st

/-- The `BlistN` arm: `op = FETCH`, the one-byte immediate, passed to
`make_list` unchanged. -/
def emit_listN (n : Nat) (st : List LVal) : Option (List LVal) :=
  make_list n st

/-! ### Meta-stack allocation in the driver -/

/-- `emacs_native_compile` passes `XFIXNAT (maxdepth) + 1` to
`compile_f` as the stack depth. -/
def emacs_native_compile_stack_depth (maxdepth : Nat) : Nat := maxdepth + 1

/-- The meta-stack set up by `compile_f`: the local array type size and,
for each meta-stack slot, the index of the array element its lvalue
references. -/
structure MetaStackInit where
  arraySize : Nat
  slotRefs : List Nat
deriving DecidableEq

/-- `compile_f` declares the local array `local` with `stack_depth`
elements and points slot `i` of the meta-stack at element `i`. -/
def compile_f_meta_stack (stack_depth : Nat) : MetaStackInit :=
  { arraySize := stack_depth, slotRefs := List.range stack_depth }

/-! ### The simple call ops (`CASE_CALL_N` and friends) -/

/-- What one opcode arm of `compile_f` does to the meta-stack: values
popped, host function called (name, argument count) if any, values
pushed. -/
structure EmitSummary where
  pops : Nat
  hostCall : Option (String × Nat)
  pushes : Nat
deriving DecidableEq

/-- The `CASE_CALL_N (name, nargs)` macro: `POPnargs`, call
`F<name>` with `nargs` arguments, push the result. -/
def CASE_CALL_N (name : String) (nargs : Nat) : EmitSummary :=
  { pops := nargs
  , hostCall := some (String.append ("F") name, nargs)
  , pushes := 1 }

/-- Per-opcode emission summary for the opcodes of the claimed arity-1
row, transcribed from the corresponding arms of `compile_f`.
`Bpreceding_char` is an explicit arm calling `Fprevious_char` with no
arguments; `Bcar_safe`/`Bcdr_safe` use `EMIT_CALL_N` with the helper
names `CAR_SAFE`/`CDR_SAFE`; `Bnumberp`/`Bintegerp` emit the inline tag
test plus `bool_to_lisp_obj` and call no host function. -/
def emit_summary (op : Nat) : Option EmitSummary :=
  if op = Bnth then some (CASE_CALL_N ("nth") 2)
  else if op = Bsymbolp then some (CASE_CALL_N ("symbolp") 1)
  else if op = Bstringp then some (CASE_CALL_N ("stringp") 1)
  else if op = Blistp then some (CASE_CALL_N ("listp") 1)
  else if op = Bnot then some (CASE_CALL_N ("not") 1)
  else if op = Blength then some (CASE_CALL_N ("length") 1)
  else if op = Bsymbol_value then some (CASE_CALL_N ("symbol_value") 1)
  else if op = Bsymbol_function then some (CASE_CALL_N ("symbol_function") 1)
  else if op = Bcurrent_buffer then some (CASE_CALL_N ("current_buffer") 0)
  else if op = Beolp then some (CASE_CALL_N ("eolp") 0)
  else if op = Beobp then some (CASE_CALL_N ("eobp") 0)
  else if op = Bbolp then some (CASE_CALL_N ("bolp") 0)
  else if op = Bbobp then some (CASE_CALL_N ("bobp") 0)
  else if op = Bwiden then some (CASE_CALL_N ("widen") 0)
  else if op = Bcurrent_column then some (CASE_CALL_N ("current_column") 0)
  else if op = Bfollowing_char then some (CASE_CALL_N ("following_char") 0)
  else if op = Bpreceding_char then
    some { pops := 0, hostCall := some (("Fprevious_char"), 0), pushes := 1 }
  else if op = Bcar_safe then
    some { pops := 1, hostCall := some (("CAR_SAFE"), 1), pushes := 1 }
  else if op = Bcdr_safe then
    some { pops := 1, hostCall := some (("CDR_SAFE"), 1), pushes := 1 }
  else if op = Bnumberp then
    some { pops := 1, hostCall := none, pushes := 1 }
  else if op = Bintegerp then
    some { pops := 1, hostCall := none, pushes := 1 }
  else none

/-- The arity-1 row of the spec's opcode table: opcode and the host
function name `F<name>` the row assigns to it. -/
def claimed_arity1_row : List (Nat × String) :=
  [(Bnth, ("Fnth")), (Bsymbolp, ("Fsymbolp")), (Bstringp, ("Fstringp")),
   (Blistp, ("Flistp")), (Bnot, ("Fnot")), (Blength, ("Flength")),
   (Bsymbol_value, ("Fsymbol_value")), (Bsymbol_function, ("Fsymbol_function")),
   (Bcurrent_buffer, ("Fcurrent_buffer")), (Beolp, ("Feolp")),
   (Beobp, ("Feobp")), (Bbolp, ("Fbolp")), (Bbobp, ("Fbobp")),
   (Bwiden, ("Fwiden")), (Bcurrent_column, ("Fcurrent_column")),
   (Bfollowing_char, ("Ffollowing_char")),
   (Bpreceding_char, ("Fpreceding_char")), (Bcar_safe, ("Fcar_safe")),
   (Bcdr_safe, ("Fcdr_safe")), (Bnumberp, ("Fnumberp")),
   (Bintegerp, ("Fintegerp"))]

/-! ### The inline arithmetic fast paths (`Bsub1`, `Badd1`, `Bnegate`)

Each arm emits a conditional on the TOS word and two sibling blocks
that both end with a jump to `bb_map[pc]`, the block owning the
successor PC.  The runtime semantics of the emitted code, as a function
of the TOS word, is transcribed below. -/

/-- Outcome of the emitted fast-path code on one TOS word: either the
inline block runs, overwriting TOS with a new word, or the fall-back
block runs, calling the named host function; both record the PC of the
join block they jump to. -/
inductive StepResult where
  | inlined (tosWord : Int) (joinPc : Nat)
  | slow (callName : String) (joinPc : Nat)
deriving DecidableEq

/-- The `Bsub1` arm: guard `FIXNUMP (TOS) && XFIXNUM (TOS) !=
MOST_NEGATIVE_FIXNUM`; inline block stores
`make_fixnum (XFIXNUM (TOS) - 1)` into TOS; fall-back block calls
`Fsub1`; both jump to `bb_map[pc]`. -/
def compile_f_sub1 (pc : Nat) (tos : Int) : StepResult :=
  if FIXNUMP tos = true ∧ emit_XFIXNUM tos ≠ MOST_NEGATIVE_FIXNUM then
    StepResult.inlined (emit_make_fixnum (emit_XFIXNUM tos - 1)) pc
  else StepResult.slow ("Fsub1") pc

/-- The `Badd1` arm: bound `MOST_POSITIVE_FIXNUM`, inline result
`make_fixnum (XFIXNUM (TOS) + 1)`, fall-back `Fadd1`. -/
def compile_f_add1 (pc : Nat) (tos : Int) : StepResult :=
  if FIXNUMP tos = true ∧ emit_XFIXNUM tos ≠ MOST_POSITIVE_FIXNUM then
    StepResult.inlined (emit_make_fixnum (emit_XFIXNUM tos + 1)) pc
  else StepResult.slow ("Fadd1") pc

/-- The `Bnegate` arm: bound `MOST_NEGATIVE_FIXNUM`, inline result
`make_fixnum (- XFIXNUM (TOS))`, fall-back `Fminus` (via
`EMIT_CALL_N_REF ("Fminus", 1)`). -/
def compile_f_negate (pc : Nat) (tos : Int) : StepResult :=
  if FIXNUMP tos = true ∧ emit_XFIXNUM tos ≠ MOST_NEGATIVE_FIXNUM then
    StepResult.inlined (emit_make_fixnum (-emit_XFIXNUM tos)) pc
  else StepResult.slow ("Fminus") pc

/-! ### The handler-push ops (`Bpushcatch`, `Bpushconditioncase`) -/

/-- `enum handlertype` values (modelled from the spec: declared in
`lisp.h`, not under the sources). -/
def CATCHER : Nat := 0

/-- Second member of `enum handlertype`. -/
def CONDITION_CASE : Nat := 1

/-- Shape of the code the `pushhandler` arm emits: values popped, the
host call and its handler-kind argument, the `setjmp` target field, the
zero branch (fall-through PC and meta-stack depth) and the nonzero
branch (what the handler-entry block does, the PC of the block it jumps
to, and the meta-stack depth recorded for that block). -/
structure PushHandlerEmit where
  popped : Nat
  hostCall : String
  kindArg : Nat
  setjmpField : String
  zeroTargetPc : Nat
  zeroDepth : Nat
  handlerSetsHandlerlistNext : Bool
  handlerPushesVal : Bool
  handlerTargetPc : Nat
  handlerEntryDepth : Nat
deriving DecidableEq

/-- The `pushhandler` arm of `compile_f`, entered with `pc` just past
the opcode byte and `depth` the current meta-stack depth:
`handler_pc = FETCH2`; `POP1`; call `push_handler (tag, type)` with
`type = CONDITION_CASE` for `Bpushconditioncase`, else `CATCHER`;
`setjmp` on `&c->jmp`; conditional on the result, with the zero edge to
`bb_map[pc]` at the popped depth, and the nonzero edge to a block that
assigns `current_thread->m_handlerlist = c->next`, pushes `c->val`, and
jumps to `bb_map[handler_pc]`, whose recorded entry depth is the popped
depth plus one. -/
def compile_f_pushhandler (opcode : Nat) (bytes : List Nat) (pc : Nat)
    (depth : Nat) : PushHandlerEmit :=
  let handler_pc := bytes.getD pc 0 + bytes.getD (pc + 1) 0 * 256
  { popped := 1
  , hostCall := ("push_handler")
  , kindArg := if opcode = Bpushconditioncase then CONDITION_CASE else CATCHER
  , setjmpField := ("jmp")
  , zeroTargetPc := pc + 2
  , zeroDepth := depth - 1
  , handlerSetsHandlerlistNext := true
  , handlerPushesVal := true
  , handlerTargetPc := handler_pc
  , handlerEntryDepth := depth - 1 + 1 }

/-! ### The inlined `CAR`/`CDR` helpers (`define_CAR_CDR`) -/

/-- Observable behavior of one emitted helper call: the
`wrong_type_argument` call it makes, if any (predicate symbol and
offending value), and the returned value. -/
structure HelperCallRes where
  wrongTypeCall : Option (String × LVal)
  ret : LVal
deriving DecidableEq

/-- The emitted `CAR` helper: `CONSP (c)` returns `XCAR (c)`; else
`NILP (c)` returns nil; else it evaluates
`wrong_type_argument (Qlistp, c)` and returns nil. -/
def CAR : LVal → HelperCallRes
  | LVal.cons a _ => { wrongTypeCall := none, ret := a }
  | LVal.nil => { wrongTypeCall := none, ret := LVal.nil }
  | LVal.atom n =>
    { wrongTypeCall := some (("Qlistp"), LVal.atom n), ret := LVal.nil }

/-- The emitted `CDR` helper, symmetric on the cdr field. -/
def CDR : LVal → HelperCallRes
  | LVal.cons _ b => { wrongTypeCall := none, ret := b }
  | LVal.nil => { wrongTypeCall := none, ret := LVal.nil }
  | LVal.atom n =>
    { wrongTypeCall := some (("Qlistp"), LVal.atom n), ret := LVal.nil }

/-! ### Theorems -/

/-- Helper: for `n` in the fixnum range the packed word does not wrap. -/
theorem emit_make_fixnum_eq (n : Int) (h1 : MOST_NEGATIVE_FIXNUM ≤ n)
    (h2 : n ≤ MOST_POSITIVE_FIXNUM) : emit_make_fixnum n = 4 * n + 2 := by
  unfold MOST_NEGATIVE_FIXNUM at h1
  unfold MOST_POSITIVE_FIXNUM at h2
  unfold emit_make_fixnum wrap64 INTTYPEBITS Lisp_Int0
  norm_num at h1 h2 ⊢
  omega

/-- Helper: packing then extracting a fixnum in range is the identity. -/
theorem fixnum_roundtrip (n : Int) (h1 : MOST_NEGATIVE_FIXNUM ≤ n)
    (h2 : n ≤ MOST_POSITIVE_FIXNUM) :
    emit_XFIXNUM (emit_make_fixnum n) = n := by
  rw [emit_make_fixnum_eq n h1 h2]
  unfold emit_XFIXNUM INTTYPEBITS
  norm_num
  rw [Int.fdiv_eq_ediv _ (by norm_num)]
  omega

/-- C10: packing then extracting is the identity on the whole fixnum
range: for every `n` with `MOST_NEGATIVE_FIXNUM ≤ n ≤ MOST_POSITIVE_FIXNUM`,
applying the emitted extraction (arithmetic right shift by `INTTYPEBITS`)
to the word produced by the emitted packing (`(n << INTTYPEBITS) + Lisp_Int0`
through the integer view) gives back `n`. -/
theorem C10_fixnum_pack_extract_roundtrip (n : Int)
    (h1 : MOST_NEGATIVE_FIXNUM ≤ n) (h2 : n ≤ MOST_POSITIVE_FIXNUM) :
    emit_XFIXNUM (emit_make_fixnum n) = n :=
  fixnum_roundtrip n h1 h2

/-- Witness for C10 at the concrete fixnum `-7`. -/
theorem C10_fixnum_pack_extract_roundtrip_witness :
    MOST_NEGATIVE_FIXNUM ≤ (-7 : Int) ∧ (-7 : Int) ≤ MOST_POSITIVE_FIXNUM ∧
      emit_XFIXNUM (emit_make_fixnum (-7)) = -7 :=
  ⟨by decide, by decide,
   C10_fixnum_pack_extract_roundtrip (-7) (by decide) (by decide)⟩

/-- C1: discovery and emission disagree on one-byte PC-relative branch
targets.  On the bytecode `[BRgoto, 131, Bdiscard, Bdiscard, Bdiscard,
Breturn]` the emission pass computes the absolute target
`pc + (131 - 128) = 5` for the `BRgoto`, but the discovery pass records
the displacement `131 - 128 = 3` as an absolute leader PC, so the leader
set is `{0, 2, 3}` and the emitted target `5` is not a block leader. -/
theorem C1_brgoto_discovery_emission_disagree :
    compile_f_rel_targets [BRgoto, 131, Bdiscard, Bdiscard, Bdiscard, Breturn] 0
        = some [5] ∧
    compute_blocks_leaders [BRgoto, 131, Bdiscard, Bdiscard, Bdiscard, Breturn]
        = [0, 2, 3] ∧
    ¬ (5 ∈ compute_blocks_leaders
          [BRgoto, 131, Bdiscard, Bdiscard, Bdiscard, Breturn]) := by
  refine ⟨by decide, by decide, by decide⟩

/-- C9: the default/constant dispatch arm aborts exactly when the opcode
byte is strictly below `Bconstant` or strictly above
`Bconstant + vector_size`; in particular the byte
`Bconstant + vector_size` is accepted and indexes the constants vector
at `vector_size`, one past its last valid index. -/
theorem C9_bconstant_guard :
    (∀ op vector_size : Nat,
        bconstant_fails op vector_size = true ↔
          (op < Bconstant ∨ op > Bconstant + vector_size)) ∧
    (∀ vector_size : Nat,
        bconstant_fails (Bconstant + vector_size) vector_size = false ∧
          bconstant_index (Bconstant + vector_size) = vector_size) := by
  constructor
  · intro op vector_size
    unfold bconstant_fails
    exact decide_eq_true_iff
  · intro vector_size
    constructor
    · unfold bconstant_fails Bconstant
      simp
    · unfold bconstant_index Bconstant
      omega

/-- C2 counterexample: at a call site whose function slot tracks a
constant symbol that is not the function being compiled and whose
function cell is a primitive subroutine of fixed arity 3, a `call`
opcode with `k = 2` arguments still emits the indirect call through the
subroutine's function pointer, although the subroutine's arity does not
match `k`; the claim requires the generic `Ffuncall` path here. -/
theorem C2_direct_subr_call_counterexample :
    docall_dispatch ⟨true, true, false, true, 3, 3⟩ = EmittedCall.directSubr ∧
    ¬ ((⟨true, true, false, true, 3, 3⟩ : CallSiteCtx).subrMinArgs ≤ (2 : Int) ∧
       (2 : Int) ≤ (⟨true, true, false, true, 3, 3⟩ : CallSiteCtx).subrMaxArgs) := by
  decide

/-- C2 amended: the emitter produces the indirect call through the
subroutine's C function pointer exactly when the function operand slot
has `const_set` with type Symbol, the symbol is not the function being
compiled, and the symbol's function cell is a primitive subroutine whose
`max_args` is not the variadic marker `MANY` — the call's argument
count `k` is never compared against the subroutine's arity; in all
other cases the generic `Ffuncall` path (or the direct self call) is
used. -/
theorem C2_direct_subr_call_amended (c : CallSiteCtx) :
    docall_dispatch c = EmittedCall.directSubr ↔
      (c.const_set = true ∧ c.typeIsSymbol = true ∧ c.symIsSelf = false ∧
       c.funcellIsSubr = true ∧ c.subrMaxArgs ≠ MANY) := by
  rcases c with ⟨cs, ts, self, subr, minA, maxA⟩
  cases cs <;> cases ts <;> cases self <;> cases subr <;>
    by_cases h : maxA = MANY <;> simp [docall_dispatch, h]

/-- C3: evaluation of the `BlistN` arm at the failing input: with
one-byte immediate `N = 2` on the four-deep stack
`[a0, a1, a2, a3]` (top first), the emitted code pops three values
(`N + 1`) and pushes the three-element list `(a2 a1 a0)`, not the
claimed two-element right fold of exactly two popped values. -/
theorem C3_listN_pops_n_plus_one :
    emit_listN 2 [LVal.atom 0, LVal.atom 1, LVal.atom 2, LVal.atom 3] =
      some [LVal.cons (LVal.atom 2) (LVal.cons (LVal.atom 1)
        (LVal.cons (LVal.atom 0) LVal.nil)), LVal.atom 3] ∧
    emit_listN 2 [LVal.atom 0, LVal.atom 1, LVal.atom 2, LVal.atom 3] ≠
      some [LVal.cons (LVal.atom 1) (LVal.cons (LVal.atom 0) LVal.nil),
        LVal.atom 2, LVal.atom 3] := by decide

/-- C4 counterexample: for a compiled-function object whose stack-depth
field is 2, the driver allocates the local array with 3 elements, not
2 as the claim states. -/
theorem C4_meta_stack_size_counterexample :
    (compile_f_meta_stack (emacs_native_compile_stack_depth 2)).arraySize = 3 ∧
    ¬ (compile_f_meta_stack (emacs_native_compile_stack_depth 2)).arraySize = 2 := by
  decide

/-- C4 amended: the driver allocates the contiguous local array with
exactly `max_depth + 1` elements, where `max_depth` is the stack-depth
field of the compiled-function object, and initializes every meta-stack
slot `i` (for `i < max_depth + 1`) to reference element `i` of that
array. -/
theorem C4_meta_stack_size_amended (maxdepth : Nat) :
    compile_f_meta_stack (emacs_native_compile_stack_depth maxdepth) =
      { arraySize := maxdepth + 1, slotRefs := List.range (maxdepth + 1) } := rfl

/-- C5 counterexample: `current_buffer` is in the claimed arity-1 row,
but its arm pops no value and calls `Fcurrent_buffer` with zero
arguments, not one. -/
theorem C5_arity1_row_counterexample :
    (Bcurrent_buffer, ("Fcurrent_buffer")) ∈ claimed_arity1_row ∧
    emit_summary Bcurrent_buffer ≠
      some { pops := 1, hostCall := some (("Fcurrent_buffer"), 1), pushes := 1 } := by
  decide

/-- C5 amended: the actual emission for the opcodes of the claimed
row: `nth` pops two and calls `Fnth` with two arguments; `symbolp`,
`stringp`, `listp`, `not`, `length`, `symbol_value`, `symbol_function`
pop one and call the corresponding `F<name>` with one argument;
`current_buffer`, `eolp`, `eobp`, `bolp`, `bobp`, `widen`,
`current_column`, `following_char` pop nothing and call the
corresponding `F<name>` with zero arguments; `preceding_char` pops
nothing and calls `Fprevious_char` with zero arguments; `car_safe` and
`cdr_safe` pop one and call the helpers `CAR_SAFE`/`CDR_SAFE`;
`numberp` and `integerp` pop one and call no host function (inline tag
test).  Each pushes one result. -/
theorem C5_call_row_amended :
    emit_summary Bnth =
      some { pops := 2, hostCall := some (("Fnth"), 2), pushes := 1 } ∧
    emit_summary Bsymbolp =
      some { pops := 1, hostCall := some (("Fsymbolp"), 1), pushes := 1 } ∧
    emit_summary Bstringp =
      some { pops := 1, hostCall := some (("Fstringp"), 1), pushes := 1 } ∧
    emit_summary Blistp =
      some { pops := 1, hostCall := some (("Flistp"), 1), pushes := 1 } ∧
    emit_summary Bnot =
      some { pops := 1, hostCall := some (("Fnot"), 1), pushes := 1 } ∧
    emit_summary Blength =
      some { pops := 1, hostCall := some (("Flength"), 1), pushes := 1 } ∧
    emit_summary Bsymbol_value =
      some { pops := 1, hostCall := some (("Fsymbol_value"), 1), pushes := 1 } ∧
    emit_summary Bsymbol_function =
      some { pops := 1, hostCall := some (("Fsymbol_function"), 1), pushes := 1 } ∧
    emit_summary Bcurrent_buffer =
      some { pops := 0, hostCall := some (("Fcurrent_buffer"), 0), pushes := 1 } ∧
    emit_summary Beolp =
      some { pops := 0, hostCall := some (("Feolp"), 0), pushes := 1 } ∧
    emit_summary Beobp =
      some { pops := 0, hostCall := some (("Feobp"), 0), pushes := 1 } ∧
    emit_summary Bbolp =
      some { pops := 0, hostCall := some (("Fbolp"), 0), pushes := 1 } ∧
    emit_summary Bbobp =
      some { pops := 0, hostCall := some (("Fbobp"), 0), pushes := 1 } ∧
    emit_summary Bwiden =
      some { pops := 0, hostCall := some (("Fwiden"), 0), pushes := 1 } ∧
    emit_summary Bcurrent_column =
      some { pops := 0, hostCall := some (("Fcurrent_column"), 0), pushes := 1 } ∧
    emit_summary Bfollowing_char =
      some { pops := 0, hostCall := some (("Ffollowing_char"), 0), pushes := 1 } ∧
    emit_summary Bpreceding_char =
      some { pops := 0, hostCall := some (("Fprevious_char"), 0), pushes := 1 } ∧
    emit_summary Bcar_safe =
      some { pops := 1, hostCall := some (("CAR_SAFE"), 1), pushes := 1 } ∧
    emit_summary Bcdr_safe =
      some { pops := 1, hostCall := some (("CDR_SAFE"), 1), pushes := 1 } ∧
    emit_summary Bnumberp =
      some { pops := 1, hostCall := none, pushes := 1 } ∧
    emit_summary Bintegerp =
      some { pops := 1, hostCall := none, pushes := 1 } := by
  decide

/-- C6: for each of `sub1`, `add1` and `negate`, the emitted conditional
takes the inline path exactly when TOS is a fixnum whose extracted value
differs from `MOST_NEGATIVE_FIXNUM` (`sub1`, `negate`) resp.
`MOST_POSITIVE_FIXNUM` (`add1`), in which case TOS is replaced by the
packed fixnum of the extracted value minus one, plus one, or negated;
otherwise the host helper `Fsub1`, `Fadd1` or `Fminus` is called; both
sibling blocks jump to the block owning the successor PC `pc`.  Stated
on fixnum words `emit_make_fixnum n` for `n` in the fixnum range and on
arbitrary non-fixnum words `w`. -/
theorem C6_arith_fastpaths (pc : Nat) (n w : Int)
    (h1 : MOST_NEGATIVE_FIXNUM ≤ n) (h2 : n ≤ MOST_POSITIVE_FIXNUM)
    (hw : FIXNUMP w = false) :
    compile_f_sub1 pc (emit_make_fixnum n) =
      (if n = MOST_NEGATIVE_FIXNUM then StepResult.slow ("Fsub1") pc
       else StepResult.inlined (emit_make_fixnum (n - 1)) pc) ∧
    compile_f_add1 pc (emit_make_fixnum n) =
      (if n = MOST_POSITIVE_FIXNUM then StepResult.slow ("Fadd1") pc
       else StepResult.inlined (emit_make_fixnum (n + 1)) pc) ∧
    compile_f_negate pc (emit_make_fixnum n) =
      (if n = MOST_NEGATIVE_FIXNUM then StepResult.slow ("Fminus") pc
       else StepResult.inlined (emit_make_fixnum (-n)) pc) ∧
    compile_f_sub1 pc w = StepResult.slow ("Fsub1") pc ∧
    compile_f_add1 pc w = StepResult.slow ("Fadd1") pc ∧
    compile_f_negate pc w = StepResult.slow ("Fminus") pc := by
  have hfix : FIXNUMP (emit_make_fixnum n) = true := by
    rw [emit_make_fixnum_eq n h1 h2]
    simp [FIXNUMP, Lisp_Int0, INTTYPEBITS]
  have hrt := fixnum_roundtrip n h1 h2
  refine ⟨?_, ?_, ?_, ?_, ?_, ?_⟩
  · rcases eq_or_ne n MOST_NEGATIVE_FIXNUM with h | h
    · subst h
      simp [compile_f_sub1, hrt]
    · simp [compile_f_sub1, hfix, hrt, h]
  · rcases eq_or_ne n MOST_POSITIVE_FIXNUM with h | h
    · subst h
      simp [compile_f_add1, hrt]
    · simp [compile_f_add1, hfix, hrt, h]
  · rcases eq_or_ne n MOST_NEGATIVE_FIXNUM with h | h
    · subst h
      simp [compile_f_negate, hrt]
    · simp [compile_f_negate, hfix, hrt, h]
  · simp [compile_f_sub1, hw]
  · simp [compile_f_add1, hw]
  · simp [compile_f_negate, hw]

/-- Witness for C6 at `pc = 3`, the fixnum `10`, and the non-fixnum
word `0`. -/
theorem C6_arith_fastpaths_witness :
    MOST_NEGATIVE_FIXNUM ≤ (10 : Int) ∧ (10 : Int) ≤ MOST_POSITIVE_FIXNUM ∧
    FIXNUMP 0 = false ∧
    (compile_f_sub1 3 (emit_make_fixnum 10) =
      (if (10 : Int) = MOST_NEGATIVE_FIXNUM then StepResult.slow ("Fsub1") 3
       else StepResult.inlined (emit_make_fixnum (10 - 1)) 3) ∧
    compile_f_add1 3 (emit_make_fixnum 10) =
      (if (10 : Int) = MOST_POSITIVE_FIXNUM then StepResult.slow ("Fadd1") 3
       else StepResult.inlined (emit_make_fixnum (10 + 1)) 3) ∧
    compile_f_negate 3 (emit_make_fixnum 10) =
      (if (10 : Int) = MOST_NEGATIVE_FIXNUM then StepResult.slow ("Fminus") 3
       else StepResult.inlined (emit_make_fixnum (-10)) 3) ∧
    compile_f_sub1 3 0 = StepResult.slow ("Fsub1") 3 ∧
    compile_f_add1 3 0 = StepResult.slow ("Fadd1") 3 ∧
    compile_f_negate 3 0 = StepResult.slow ("Fminus") 3) :=
  ⟨by decide, by decide, by decide,
   C6_arith_fastpaths 3 10 0 (by decide) (by decide) (by decide)⟩

/-- C7: for `Bpushcatch` and `Bpushconditioncase` the emitter pops one
value, calls `push_handler` with it and the handler kind (`CATCHER`
resp. `CONDITION_CASE`), emits `setjmp` on the handler's `jmp` buffer
and branches on its result: the zero edge continues at the instruction
following the push (`pc + 2`) with the meta-stack depth unchanged after
the pop, and the nonzero edge runs a handler-entry block that assigns
`current_thread->m_handlerlist = c->next`, pushes `c->val` (entry depth
one above the popped depth), and jumps unconditionally to the block at
the handler PC given by the two-byte little-endian immediate. -/
theorem C7_pushhandler_emission (bytes : List Nat) (pc depth : Nat) :
    compile_f_pushhandler Bpushcatch bytes pc depth =
      { popped := 1, hostCall := ("push_handler"), kindArg := CATCHER,
        setjmpField := ("jmp"), zeroTargetPc := pc + 2, zeroDepth := depth - 1,
        handlerSetsHandlerlistNext := true, handlerPushesVal := true,
        handlerTargetPc := bytes.getD pc 0 + bytes.getD (pc + 1) 0 * 256,
        handlerEntryDepth := depth - 1 + 1 } ∧
    compile_f_pushhandler Bpushconditioncase bytes pc depth =
      { popped := 1, hostCall := ("push_handler"), kindArg := CONDITION_CASE,
        setjmpField := ("jmp"), zeroTargetPc := pc + 2, zeroDepth := depth - 1,
        handlerSetsHandlerlistNext := true, handlerPushesVal := true,
        handlerTargetPc := bytes.getD pc 0 + bytes.getD (pc + 1) 0 * 256,
        handlerEntryDepth := depth - 1 + 1 } := by
  constructor <;> rfl

/-- C8: the emitted `CAR` helper returns the car field on a cons cell,
returns nil on nil, and otherwise calls
`wrong_type_argument (Qlistp, c)` and returns nil; the `CDR` helper
behaves symmetrically on the cdr field. -/
theorem C8_car_cdr_helpers :
    (∀ a b : LVal, CAR (LVal.cons a b) = { wrongTypeCall := none, ret := a }) ∧
    CAR LVal.nil = { wrongTypeCall := none, ret := LVal.nil } ∧
    (∀ n : Nat, CAR (LVal.atom n) =
      { wrongTypeCall := some (("Qlistp"), LVal.atom n), ret := LVal.nil }) ∧
    (∀ a b : LVal, CDR (LVal.cons a b) = { wrongTypeCall := none, ret := b }) ∧
    CDR LVal.nil = { wrongTypeCall := none, ret := LVal.nil } ∧
    (∀ n : Nat, CDR (LVal.atom n) =
      { wrongTypeCall := some (("Qlistp"), LVal.atom n), ret := LVal.nil }) :=
  ⟨fun _ _ => rfl, rfl, fun _ => rfl, fun _ _ => rfl, rfl, fun _ => rfl⟩
